import Mathlib

/-!
Shallow embedding of `uploader.py` (MCDRDev-Autouploader).

The Python program is modelled as trace-producing functions.  Every
side-effecting primitive (logging, FTP/SFTP calls, file removal, observer
management, thread management) is recorded as an `Action`.  A Python
function body is a `PyRun`: the list of actions it performed paired with
`none` (returned normally) or `some e` (raised an exception carrying
message `e`).  Fallible external primitives (network calls, `os.remove`)
are driven by an environment that tells, per call site, whether the call
succeeds or raises.
-/

namespace Uploader

/-- One observable effect of the program, in program order. -/
inductive Action where
  | logInfo (msg : String)
  | logError (msg : String)
  | logWarning (msg : String)
  | printMsg (msg : String)
  | createZip (srcDir : String) (zipPath : String)
  | ftpConnect (host : String) (port : Int)
  | ftpLogin (username : String) (password : String)
  | ftpCwd (dir : String)
  | openLocal (path : String)
  | ftpStor (name : String)
  | ftpClose
  | sftpTransportOpen (host : String) (port : Int)
  | sftpLoadKey (file : String)
  | sftpAuthKey (username : String)
  | sftpAuthPassword (username : String) (password : String)
  | sftpFromTransport
  | sftpPut (localPath : String) (remotePath : String)
  | sftpCloseSession
  | sftpCloseTransport
  | removeFile (path : String)
  | observerSchedule (dir : String)
  | observerStart
  | observerStop
  | observerJoin
  | threadStart (name : String)
  | threadJoin (name : String)
  deriving DecidableEq, Repr

/-- The FTP credential block of the configuration (`config["ftp"]`). -/
structure FtpConf where
  host : String
  port : Int
  username : String
  password : String
  deriving DecidableEq, Repr

/-- The SFTP credential block (`config["sftp"]`); `private_key_file` is
`none` when the key is absent from the stored document
(`sftp_config.get("private_key_file")` returns `None`). -/
structure SftpConf where
  host : String
  port : Int
  username : String
  password : String
  private_key_file : Option String
  deriving DecidableEq, Repr

/-- The configuration record, with the fields `uploader.py` reads. -/
structure Config where
  plugin_dir : String
  server_plugin_dir : String
  plugin_name : String
  auto_upload : Bool
  upload_method : String
  ftp : FtpConf
  sftp : SftpConf
  deriving DecidableEq, Repr

/-- Result of running a piece of Python code: the trace of actions it
performed, and `none` if it returned normally or `some e` if it raised. -/
abbrev PyRun := List Action × Option String

/-- A fallible external primitive: it performs action `a` and succeeds
when `eff = none`, or raises `e` (performing nothing) when
`eff = some e`. -/
def pstep (a : Action) (eff : Option String) : PyRun :=
  match eff with
  | none => ([a], none)
  | some e => ([], some e)

/-- Sequencing of two statements: if the first raises, the second does
not run and the exception propagates. -/
def pseq (x y : PyRun) : PyRun :=
  match x with
  | (t, none) => (t ++ y.1, y.2)
  | (t, some e) => (t, some e)

/-- A `try: body except Exception as e: handler(e)` block: any exception
raised by the body is caught and the handler's actions run instead of the
exception propagating. -/
def pyTry (body : PyRun) (handler : String → List Action) : PyRun :=
  match body with
  | (t, none) => (t, none)
  | (t, some e) => (t ++ handler e, none)

/-- Failure environment for one `upload_ftp` call: which of the five
fallible primitives inside the `try` raises, if any (first `some` along
the control path wins). -/
structure FtpEnv where
  connectEff : Option String
  loginEff : Option String
  cwdEff : Option String
  openEff : Option String
  storEff : Option String
  deriving DecidableEq, Repr

/-- Failure environment for one `upload_sftp` call. -/
structure SftpEnv where
  transportEff : Option String
  loadKeyEff : Option String
  authEff : Option String
  sessionEff : Option String
  putEff : Option String
  deriving DecidableEq, Repr

/-- The body of the `with ftplib.FTP() as ftp:` block in `upload_ftp`
(lines 65-71): connect, login, cwd to the server plugin dir, open the
local zip, STOR it under the configured plugin name, log success. -/
def ftpBody (config : Config) (zip_path : String) (env : FtpEnv) : PyRun :=
  pseq (pstep (.ftpConnect config.ftp.host config.ftp.port) env.connectEff)
    (pseq (pstep (.ftpLogin config.ftp.username config.ftp.password) env.loginEff)
      (pseq (pstep (.ftpCwd config.server_plugin_dir) env.cwdEff)
        (pseq (pstep (.openLocal zip_path) env.openEff)
          (pseq (pstep (.ftpStor config.plugin_name) env.storEff)
            ([.logInfo ("插件已通过 FTP 上传到服务器: " ++ zip_path)], none)))))

/-- The `with`-statement around the FTP object: `FTP.__exit__` closes the
connection on both the normal and the exceptional exit, before any
exception propagates to the surrounding `except`. -/
def withFtpClose (body : PyRun) : PyRun :=
  (body.1 ++ [Action.ftpClose], body.2)

/-- `upload_ftp(config, zip_path)` (lines 62-73): the whole `with` block
runs inside `try ... except Exception`, which logs and swallows any
failure. -/
def upload_ftp (config : Config) (zip_path : String) (env : FtpEnv) : PyRun :=
  pyTry (withFtpClose (ftpBody config zip_path env))
    (fun e => [.logError ("FTP 上传失败: " ++ e)])

/-- Python truthiness of `sftp_config.get("private_key_file")`: `None`
and the empty string are falsy, a non-empty string is truthy. -/
def pyTruthy : Option String → Bool
  | none => false
  | some s => !s.isEmpty

/-- The authentication step of `upload_sftp` (lines 80-84): load the RSA
key and connect with it when `private_key_file` is truthy, otherwise
connect with username/password. -/
def sftpAuthPart (config : Config) (env : SftpEnv) : PyRun :=
  match config.sftp.private_key_file with
  | some keyfile =>
    if keyfile.isEmpty then
      pstep (.sftpAuthPassword config.sftp.username config.sftp.password) env.authEff
    else
      pseq (pstep (.sftpLoadKey keyfile) env.loadKeyEff)
        (pstep (.sftpAuthKey config.sftp.username) env.authEff)
  | none => pstep (.sftpAuthPassword config.sftp.username config.sftp.password) env.authEff

/-- The body of the `try` in `upload_sftp` (lines 79-90): open the
transport, authenticate, open the SFTP session, put the file at
`server_plugin_dir + "/" + plugin_name`, then close the session, close
the transport, and log success.  The two closes and the success log are
reached only after every earlier step succeeded. -/
def sftpBody (config : Config) (zip_path : String) (env : SftpEnv) : PyRun :=
  pseq (pstep (.sftpTransportOpen config.sftp.host config.sftp.port) env.transportEff)
    (pseq (sftpAuthPart config env)
      (pseq (pstep .sftpFromTransport env.sessionEff)
        (pseq (pstep (.sftpPut zip_path
            (config.server_plugin_dir ++ "/" ++ config.plugin_name)) env.putEff)
          ([.sftpCloseSession, .sftpCloseTransport,
            .logInfo ("插件已通过 SFTP 上传到服务器: " ++
              config.server_plugin_dir ++ "/" ++ config.plugin_name)], none))))

/-- `upload_sftp(config, zip_path)` (lines 76-92): the body runs inside
`try ... except Exception`, which logs and swallows any failure. -/
def upload_sftp (config : Config) (zip_path : String) (env : SftpEnv) : PyRun :=
  pyTry (sftpBody config zip_path env)
    (fun e => [.logError ("SFTP 上传失败: " ++ e)])

/-- `os.path.join` on POSIX, for the two-argument uses in this program. -/
def osPathJoin (a b : String) : String :=
  if b.startsWith "/" then b
  else if a.isEmpty then b
  else if a.endsWith "/" then a ++ b
  else a ++ "/" ++ b

/-- Failure environment for one `upload_plugin` call: the transport
environments plus whether `os.remove` on the scratch file raises. -/
structure UploadEnv where
  ftpEnv : FtpEnv
  sftpEnv : SftpEnv
  removeEff : Option String
  deriving DecidableEq, Repr

/-- `upload_plugin(config)` (lines 95-111): compute the scratch path,
build the zip from `plugin_dir`, dispatch on `upload_method` ("ftp",
"sftp", or log an error for anything else), try to delete the scratch
file (warning on failure), and log completion.  `temp_dir` stands for
`tempfile.gettempdir()`. -/
def upload_plugin (temp_dir : String) (config : Config) (env : UploadEnv) : PyRun :=
  let zip_path := osPathJoin temp_dir config.plugin_name
  pseq ([.createZip config.plugin_dir zip_path], none)
    (pseq
      (if config.upload_method = "ftp" then upload_ftp config zip_path env.ftpEnv
       else if config.upload_method = "sftp" then upload_sftp config zip_path env.sftpEnv
       else ([.logError "上传方法无效，请选择 \x27ftp\x27 或 \x27sftp\x27"], none))
      (pseq (pyTry (pstep (.removeFile zip_path) env.removeEff)
              (fun e => [.logWarning ("删除临时文件失败: " ++ e)]))
        ([.logInfo "插件已重载"], none)))

/-- A watchdog filesystem event as seen by `WatcherHandler.on_modified`. -/
structure FsEvent where
  is_directory : Bool
  src_path : String
  deriving DecidableEq, Repr

/-- `WatcherHandler.on_modified` (lines 115-121): returns the trace and
the number of `upload_plugin` invocations it performed (0 or 1).
Directory events are ignored; a file event triggers one upload exactly
when its path ends in ".py". -/
def on_modified (temp_dir : String) (config : Config) (env : UploadEnv)
    (event : FsEvent) : List Action × Nat :=
  if event.is_directory then ([], 0)
  else if event.src_path.endsWith ".py" then
    (Action.logInfo ("检测到文件变更: " ++ event.src_path ++ ", 正在重新打包并上传...") ::
      (upload_plugin temp_dir config env).1, 1)
  else ([], 0)

/-- How the poll loop of `start_watcher` ends in a given run: the
termination signal (`stop_event`) becomes set, or a `KeyboardInterrupt`
is delivered while the loop is sleeping. -/
inductive StopMode where
  | stopSignal
  | interrupt
  deriving DecidableEq, Repr

/-- Outcome of a `start_watcher` run: the actions performed, and whether
the function ever returns (`returns = false` models blocking forever). -/
structure WatchRun where
  trace : List Action
  returns : Bool
  deriving DecidableEq, Repr

/-- `Observer.join()`: the observer worker thread keeps running until
`Observer.stop()` has been called, so `join` returns exactly when `stop`
was invoked earlier, and blocks forever otherwise. -/
def observerJoinStep (stopped : Bool) (t : List Action) : WatchRun :=
  if stopped then ⟨t ++ [Action.observerJoin], true⟩ else ⟨t, false⟩

/-- `start_watcher(config, stop_event)` (lines 124-136): schedule and
start the observer, poll `stop_event` once a second inside `try`; on
`KeyboardInterrupt` the `except` handler calls `observer.stop()`; when
the loop instead exits because `stop_event` is set, no handler runs and
control falls through directly to `observer.join()`. -/
def start_watcher (config : Config) (mode : StopMode) : WatchRun :=
  let t0 := [Action.observerSchedule config.plugin_dir, Action.observerStart]
  match mode with
  | .stopSignal => observerJoinStep false t0
  | .interrupt => observerJoinStep true (t0 ++ [Action.observerStop])

/-- `manual_upload(config)` (lines 139-147): consume the interactive
input stream; "upload" runs `upload_plugin` with that trigger's failure
environment, "exit" returns, anything else prints a complaint; an
exhausted stream models `input()` raising `EOFError`. -/
def manual_upload (temp_dir : String) (config : Config) :
    List (String × UploadEnv) → PyRun
  | [] => ([], some "EOFError")
  | (command, env) :: rest =>
    if command.toLower = "upload" then
      pseq (upload_plugin temp_dir config env) (manual_upload temp_dir config rest)
    else if command.toLower = "exit" then ([], none)
    else
      pseq ([.printMsg "无效命令，请输入 \x27upload\x27 或 \x27exit\x27。"], none)
        (manual_upload temp_dir config rest)

/-- The `__main__` block (lines 157-183), given the already-loaded
configuration.  In auto mode the two worker threads are started and
joined (their interleaved effects are summarised sequentially, including
the watcher thread's own trace; the trailing joins and the final exit
log idealise an exit that, on the stop-signal path, the code never
actually reaches because the watcher thread blocks in `observer.join()`
— see `start_watcher`; no theorem below relies on the auto branch).  In
manual mode the program logs the mode and runs the manual command loop
on the main thread. -/
def pymain (temp_dir : String) (config : Config)
    (inputs : List (String × UploadEnv)) (mode : StopMode) : PyRun :=
  pseq ([.logInfo "插件自动化更新程序已启动，开始加载配置..."], none)
    (if config.auto_upload then
      pseq ([.logInfo "启用自动上传模式，开始监视文件变化...",
             .threadStart "watcher", .threadStart "exit"], none)
        (pseq ((start_watcher config mode).trace, none)
          ([.threadJoin "exit", .threadJoin "watcher", .logInfo "程序已退出"], none))
    else
      pseq ([.logInfo "启用手动上传模式，等待用户命令..."], none)
        (manual_upload temp_dir config inputs))

/-- A directory entry in the filesystem tree rooted at the watched
directory: a plain file, or a subdirectory with its own entries (listed
in the order the OS reports them). -/
inductive FsEntry where
  | file (name : String)
  | dir (name : String) (children : List FsEntry)
  deriving Repr

/-- The plain files among the immediate children of a directory, as
singleton relative paths, in listing order — the `files` component that
`os.walk` yields for that directory. -/
def topFiles : List FsEntry → List (List String)
  | [] => []
  | .file n :: es => [n] :: topFiles es
  | .dir _ _ :: es => topFiles es

mutual

/-- The relative paths contributed by the subdirectories among the given
entries, in listing order: `os.walk` recurses into each subdirectory
after yielding the current directory. -/
def dirsRec : List FsEntry → List (List String)
  | [] => []
  | .file _ :: es => dirsRec es
  | .dir n cs :: es => (walkList cs).map (fun p => n :: p) ++ dirsRec es

/-- All files below a directory with the given children, as paths
relative to that directory, in `os.walk` top-down order: the directory's
own files first, then each subdirectory recursively. -/
def walkList (cs : List FsEntry) : List (List String) :=
  topFiles cs ++ dirsRec cs

end

mutual

/-- Number of files in one entry (a file counts 1, a directory counts
its contents). -/
def countFiles : FsEntry → Nat
  | .file _ => 1
  | .dir _ cs => countList cs

/-- Number of files below a list of entries, at any depth. -/
def countList : List FsEntry → Nat
  | [] => 0
  | e :: es => countFiles e + countList es

end

/-- `create_zip_from_dir(directory, zip_name)` (lines 55-59): opening
`zip_name` in mode "w" truncates whatever file may already be there
(`prev`), then every file found by `os.walk(directory)` is written under
its `os.path.relpath` entry name.  Returns the output path and the list
of archive entry names. -/
def create_zip_from_dir (directory : List FsEntry) (zip_name : String)
    (_prev : Option (List String)) : String × List String :=
  (zip_name, (walkList directory).map (fun p => String.intercalate "/" p))

/-- A JSON document, as Python's `json` module sees the configuration
file.  Strings (and object keys) are sequences of Unicode code points
(`List Nat`), because Python's decoder also produces unpaired surrogate
code points from `\uXXXX` escapes, which a scalar-only string type could
not hold.  Integer numerals decode to `num`; fraction/exponent numerals
and the `NaN`/`Infinity`/`-Infinity` constants decode to Python floats,
which this model abstracts by their source lexeme (`floatLit`) without
modelling IEEE semantics. -/
inductive Json where
  | null
  | bool (b : Bool)
  | num (n : Int)
  | floatLit (lexeme : List Char)
  | str (cps : List Nat)
  | arr (elems : List Json)
  | obj (members : List (List Nat × Json))
  deriving Repr

/-- The code points of a Lean string literal, for writing documents. -/
def cp (s : String) : List Nat :=
  s.data.map Char.toNat

/-- The opening curly brace character. -/
def lbrace : Char := Char.ofNat 123

/-- The closing curly brace character. -/
def rbrace : Char := Char.ofNat 125

/-- `n` spaces, for `json.dump`'s `indent=4` pretty printing. -/
def spaces : Nat → List Char
  | 0 => []
  | n + 1 => ' ' :: spaces n

/-- One lowercase hexadecimal digit. -/
def hexDigitChar (n : Nat) : Char :=
  if n < 10 then Char.ofNat (48 + n) else Char.ofNat (87 + (n - 10))

/-- A `\uXXXX` escape for code unit `n < 0x10000`. -/
def uEsc (n : Nat) : List Char :=
  ['\\', 'u', hexDigitChar (n / 4096 % 16), hexDigitChar (n / 256 % 16),
    hexDigitChar (n / 16 % 16), hexDigitChar (n % 16)]

/-- How `json.dump` (with its default `ensure_ascii=True`) renders one
code point inside a string literal: short escapes for the usual control
characters, the point itself for printable ASCII, `\uXXXX` for every
other point below 0x10000 (unpaired surrogates included), and a
surrogate pair of `\uXXXX` escapes for astral points. -/
def escCp (n : Nat) : List Char :=
  if n = 34 then ['\\', '"']
  else if n = 92 then ['\\', '\\']
  else if n = 10 then ['\\', 'n']
  else if n = 9 then ['\\', 't']
  else if n = 13 then ['\\', 'r']
  else if n = 8 then ['\\', 'b']
  else if n = 12 then ['\\', 'f']
  else if n < 32 ∨ n > 126 then
    if n < 65536 then uEsc n
    else
      uEsc (55296 + (n - 65536) / 1024) ++ uEsc (56320 + (n - 65536) % 1024)
  else [Char.ofNat n]

/-- A JSON string literal, quotes included. -/
def dumpString (cps : List Nat) : List Char :=
  '"' :: (cps.map escCp).flatten ++ ['"']

mutual

/-- `json.dump(value, f, indent=4)`: serialize `value` at nesting level
`lvl` (each level indents by four spaces; the key/value separator is
": ", the item separator a comma followed by a newline; empty containers
print on one line). -/
def dumpVal : Json → Nat → List Char
  | .null, _ => ['n', 'u', 'l', 'l']
  | .bool true, _ => ['t', 'r', 'u', 'e']
  | .bool false, _ => ['f', 'a', 'l', 's', 'e']
  | .num n, _ => (toString n).data
  | .floatLit lexeme, _ => lexeme
  | .str s, _ => dumpString s
  | .arr [], _ => ['[', ']']
  | .arr (x :: xs), lvl =>
    ['[', '\n'] ++ spaces (4 * (lvl + 1)) ++ dumpVal x (lvl + 1) ++
      dumpElems xs (lvl + 1) ++ ['\n'] ++ spaces (4 * lvl) ++ [']']
  | .obj [], _ => [lbrace, rbrace]
  | .obj (m :: ms), lvl =>
    [lbrace, '\n'] ++ spaces (4 * (lvl + 1)) ++ dumpMember m (lvl + 1) ++
      dumpMembers ms (lvl + 1) ++ ['\n'] ++ spaces (4 * lvl) ++ [rbrace]

/-- One `"key": value` member. -/
def dumpMember : List Nat × Json → Nat → List Char
  | (k, v), lvl => dumpString k ++ [':', ' '] ++ dumpVal v lvl

/-- The remaining array elements, each preceded by ",\n" and indentation. -/
def dumpElems : List Json → Nat → List Char
  | [], _ => []
  | x :: xs, lvl => [',', '\n'] ++ spaces (4 * lvl) ++ dumpVal x lvl ++ dumpElems xs lvl

/-- The remaining object members, each preceded by ",\n" and indentation. -/
def dumpMembers : List (List Nat × Json) → Nat → List Char
  | [], _ => []
  | m :: ms, lvl => [',', '\n'] ++ spaces (4 * lvl) ++ dumpMember m lvl ++ dumpMembers ms lvl

end

/-- Serialization of a whole document, as written to `config.json`. -/
def json_dump (j : Json) : List Char :=
  dumpVal j 0

/-- JSON insignificant whitespace. -/
def isJsonWs (c : Char) : Bool :=
  c = ' ' || c = '\n' || c = '\t' || c = '\r'

/-- Drop leading JSON whitespace. -/
def skipWs : List Char → List Char
  | [] => []
  | c :: cs => if isJsonWs c then skipWs cs else c :: cs

/-- Value of one hexadecimal digit. -/
def hexVal (c : Char) : Option Nat :=
  if '0' ≤ c ∧ c ≤ '9' then some (c.toNat - 48)
  else if 'a' ≤ c ∧ c ≤ 'f' then some (c.toNat - 87)
  else if 'A' ≤ c ∧ c ≤ 'F' then some (c.toNat - 55)
  else none

/-- Body of a JSON string literal after the opening quote: returns the
decoded code points and the input after the closing quote, exactly as
Python's strict decoder does.  A `\uXXXX` high surrogate immediately
followed by a `\uXXXX` low surrogate combines into one astral code
point; any other `\uXXXX` value (unpaired surrogates included) decodes
to that code point itself; raw control characters are rejected. -/
def parseStrChars : List Char → Option (List Nat × List Char)
  | [] => none
  | '"' :: cs => some ([], cs)
  | '\\' :: 'u' :: h1 :: h2 :: h3 :: h4 :: cs =>
    match hexVal h1, hexVal h2, hexVal h3, hexVal h4 with
    | some a, some b, some c, some d =>
      let n := a * 4096 + b * 256 + c * 16 + d
      if 55296 ≤ n ∧ n ≤ 56319 then
        match cs with
        | '\\' :: 'u' :: g1 :: g2 :: g3 :: g4 :: cs2 =>
          match hexVal g1, hexVal g2, hexVal g3, hexVal g4 with
          | some a2, some b2, some c2, some d2 =>
            let m := a2 * 4096 + b2 * 256 + c2 * 16 + d2
            if 56320 ≤ m ∧ m ≤ 57343 then
              (parseStrChars cs2).map
                (fun r => ((65536 + (n - 55296) * 1024 + (m - 56320)) :: r.1, r.2))
            else
              (parseStrChars ('\\' :: 'u' :: g1 :: g2 :: g3 :: g4 :: cs2)).map
                (fun r => (n :: r.1, r.2))
          | _, _, _, _ =>
            (parseStrChars ('\\' :: 'u' :: g1 :: g2 :: g3 :: g4 :: cs2)).map
              (fun r => (n :: r.1, r.2))
        | rest2 => (parseStrChars rest2).map (fun r => (n :: r.1, r.2))
      else (parseStrChars cs).map (fun r => (n :: r.1, r.2))
    | _, _, _, _ => none
  | '\\' :: e :: cs =>
    let decoded : Option Nat :=
      if e = '"' then some 34
      else if e = '\\' then some 92
      else if e = '/' then some 47
      else if e = 'b' then some 8
      else if e = 'f' then some 12
      else if e = 'n' then some 10
      else if e = 'r' then some 13
      else if e = 't' then some 9
      else none
    match decoded with
    | some d => (parseStrChars cs).map (fun r => (d :: r.1, r.2))
    | none => none
  | '\\' :: [] => none
  | c :: cs =>
    if c.toNat < 32 then none
    else (parseStrChars cs).map (fun r => (c.toNat :: r.1, r.2))

/-- Split off the leading run of decimal digits. -/
def takeDigits : List Char → List Char × List Char
  | [] => ([], [])
  | c :: cs =>
    if '0' ≤ c ∧ c ≤ '9' then
      let r := takeDigits (cs)
      (c :: r.1, r.2)
    else ([], c :: cs)

/-- Decimal value of a digit run. -/
def digitsToNat : List Char → Nat → Nat
  | [], acc => acc
  | c :: cs, acc => digitsToNat cs (acc * 10 + (c.toNat - 48))

/-- Continue a numeral after its integer part, mimicking Python json's
`NUMBER_RE` `(-?(?:0|[1-9]\d+|[1-9]))(\.\d+)?([eE][-+]?\d+)?`: an
optional fraction (a dot with at least one digit) and an optional
exponent (`e`/`E`, optional sign, at least one digit); a dot or
exponent marker not followed by the required digits is not consumed
(the numeral ends before it, as regex matching does).  A numeral with
neither part is an integer; otherwise the whole lexeme is a float. -/
def finishNumber (neg : Bool) (intPart : List Char) (cs : List Char) :
    Json × List Char :=
  let fracSplit : List Char × List Char :=
    match cs with
    | '.' :: d :: cs3 =>
      if '0' ≤ d ∧ d ≤ '9' then
        let r := takeDigits cs3
        ('.' :: d :: r.1, r.2)
      else ([], cs)
    | _ => ([], cs)
  let expSplit : List Char × List Char :=
    match fracSplit.2 with
    | e :: s :: d :: rest2 =>
      if e = 'e' ∨ e = 'E' then
        if (s = '+' ∨ s = '-') ∧ ('0' ≤ d ∧ d ≤ '9') then
          let r := takeDigits rest2
          (e :: s :: d :: r.1, r.2)
        else if '0' ≤ s ∧ s ≤ '9' then
          let r := takeDigits (s :: d :: rest2)
          (e :: r.1, r.2)
        else ([], fracSplit.2)
      else ([], fracSplit.2)
    | e :: s :: [] =>
      if (e = 'e' ∨ e = 'E') ∧ ('0' ≤ s ∧ s ≤ '9') then ([e, s], [])
      else ([], fracSplit.2)
    | _ => ([], fracSplit.2)
  if fracSplit.1.isEmpty ∧ expSplit.1.isEmpty then
    (.num (if neg then -(digitsToNat intPart 0 : Int) else (digitsToNat intPart 0 : Int)),
      cs)
  else
    (.floatLit ((if neg then ['-'] else []) ++ intPart ++ fracSplit.1 ++ expSplit.1),
      expSplit.2)

/-- A numeral starting at `cs` (an optional minus sign, then an integer
part that is `0` or starts with a nonzero digit — a leading zero cannot
be followed by more digits, so "01" ends after the `0`). -/
def parseNumber (cs : List Char) : Option (Json × List Char) :=
  let signSplit : Bool × List Char :=
    match cs with
    | '-' :: cs1 => (true, cs1)
    | _ => (false, cs)
  match signSplit.2 with
  | '0' :: cs2 => some (finishNumber signSplit.1 ['0'] cs2)
  | c :: cs2 =>
    if '1' ≤ c ∧ c ≤ '9' then
      let r := takeDigits cs2
      some (finishNumber signSplit.1 (c :: r.1) r.2)
    else none
  | [] => none

/-- Insertion of a parsed object member with Python `dict` semantics: a
repeated key keeps its first position but takes the latest value. -/
def insertMember : List (List Nat × Json) → List Nat → Json →
    List (List Nat × Json)
  | [], k, v => [(k, v)]
  | (k0, v0) :: ms, k, v =>
    if k0 = k then (k0, v) :: ms else (k0, v0) :: insertMember ms k v

mutual

/-- Recursive-descent JSON value parser, the model of `json.load`'s
grammar: objects, arrays, strings, `true`/`false`/`null`, numerals per
Python json's number regex, and the `NaN`/`Infinity`/`-Infinity`
constants Python accepts by default.  `fuel` bounds the recursion depth;
the callers supply more fuel than any input can consume.  Returns the
value and the unconsumed input. -/
def parseVal : Nat → List Char → Option (Json × List Char)
  | 0, _ => none
  | fuel + 1, cs =>
    match skipWs cs with
    | [] => none
    | c :: rest =>
      if c = lbrace then
        match skipWs rest with
        | c2 :: rest2 =>
          if c2 = rbrace then some (.obj [], rest2)
          else parseMembers fuel (c2 :: rest2) []
        | [] => none
      else if c = '[' then
        match skipWs rest with
        | c2 :: rest2 =>
          if c2 = ']' then some (.arr [], rest2)
          else parseElems fuel (c2 :: rest2) []
        | [] => none
      else if c = '"' then
        (parseStrChars rest).map (fun r => (.str r.1, r.2))
      else if c = 't' then
        match rest with
        | 'r' :: 'u' :: 'e' :: rs => some (.bool true, rs)
        | _ => none
      else if c = 'f' then
        match rest with
        | 'a' :: 'l' :: 's' :: 'e' :: rs => some (.bool false, rs)
        | _ => none
      else if c = 'n' then
        match rest with
        | 'u' :: 'l' :: 'l' :: rs => some (.null, rs)
        | _ => none
      else if c = 'N' then
        match rest with
        | 'a' :: 'N' :: rs => some (.floatLit ['N', 'a', 'N'], rs)
        | _ => none
      else if c = 'I' then
        match rest with
        | 'n' :: 'f' :: 'i' :: 'n' :: 'i' :: 't' :: 'y' :: rs =>
          some (.floatLit ['I', 'n', 'f', 'i', 'n', 'i', 't', 'y'], rs)
        | _ => none
      else if c = '-' then
        match rest with
        | 'I' :: 'n' :: 'f' :: 'i' :: 'n' :: 'i' :: 't' :: 'y' :: rs =>
          some (.floatLit ['-', 'I', 'n', 'f', 'i', 'n', 'i', 't', 'y'], rs)
        | _ => parseNumber (c :: rest)
      else if '0' ≤ c ∧ c ≤ '9' then
        parseNumber (c :: rest)
      else none

/-- Parse the members of a non-empty object, accumulated in `acc` with
Python `dict` duplicate-key semantics; the input starts at the first
character of a key (whitespace skipped). -/
def parseMembers : Nat → List Char → List (List Nat × Json) →
    Option (Json × List Char)
  | 0, _, _ => none
  | fuel + 1, cs, acc =>
    match cs with
    | '"' :: rest =>
      match parseStrChars rest with
      | none => none
      | some (key, afterKey) =>
        match skipWs afterKey with
        | ':' :: afterColon =>
          match parseVal fuel afterColon with
          | none => none
          | some (v, afterVal) =>
            match skipWs afterVal with
            | ',' :: afterComma =>
              parseMembers fuel (skipWs afterComma) (insertMember acc key v)
            | c :: rs2 =>
              if c = rbrace then some (.obj (insertMember acc key v), rs2)
              else none
            | [] => none
        | _ => none
    | _ => none

/-- Parse the elements of a non-empty array, accumulated in `acc`. -/
def parseElems : Nat → List Char → List Json → Option (Json × List Char)
  | 0, _, _ => none
  | fuel + 1, cs, acc =>
    match parseVal fuel cs with
    | none => none
    | some (v, afterVal) =>
      match skipWs afterVal with
      | ',' :: afterComma => parseElems fuel (skipWs afterComma) (acc ++ [v])
      | ']' :: rs => some (.arr (acc ++ [v]), rs)
      | _ => none

end

/-- `json.load` on a file whose full text is `s`: parse one value and
require only whitespace after it. -/
def json_load (s : List Char) : Option Json :=
  match parseVal (s.length + 1) s with
  | some (j, rest) => if (skipWs rest).isEmpty then some j else none
  | none => none

/-- The `DEFAULT_CONFIG` dictionary (lines 17-36) as a JSON document, in
source key order. -/
def defaultConfigJson : Json :=
  .obj
    [(cp "plugin_dir", .str (cp "/path/to/your/plugin")),
     (cp "server_plugin_dir", .str (cp "/path/to/server/plugins")),
     (cp "plugin_name", .str (cp "your_plugin_name.zip")),
     (cp "auto_upload", .bool true),
     (cp "upload_method", .str (cp "ftp")),
     (cp "ftp", .obj
       [(cp "host", .str (cp "ftp.example.com")),
        (cp "port", .num 21),
        (cp "username", .str (cp "your_ftp_username")),
        (cp "password", .str (cp "your_ftp_password"))]),
     (cp "sftp", .obj
       [(cp "host", .str (cp "sftp.example.com")),
        (cp "port", .num 22),
        (cp "username", .str (cp "your_sftp_username")),
        (cp "password", .str (cp "your_sftp_password")),
        (cp "private_key_file", .str (cp "/path/to/private/key"))])]

/-- Lookup of a top-level key in an object document. -/
def objGet (j : Json) (key : List Nat) : Option Json :=
  match j with
  | .obj ms => ms.lookup key
  | _ => none

/-- `load_config()` (lines 43-52), over the stored state of
`config.json` (`none` when the file does not exist, `some s` when it
holds the text `s`).  Returns the Python-level result (`Except.error`
models the uncaught `json.JSONDecodeError`) together with the file state
afterwards. -/
def load_config (stored : Option (List Char)) :
    Except String Json × Option (List Char) :=
  match stored with
  | none => (.ok defaultConfigJson, some (json_dump defaultConfigJson))
  | some s =>
    match json_load s with
    | some j => (.ok j, some s)
    | none => (.error "json.decoder.JSONDecodeError", some s)

/-- Actions that create or drive a filesystem subscription or a worker
thread: scheduling/starting the watchdog observer and starting/joining
threads.  Used to state that manual mode performs none of them. -/
def isWatchAction : Action → Bool
  | .observerSchedule _ => true
  | .observerStart => true
  | .observerStop => true
  | .observerJoin => true
  | .threadStart _ => true
  | .threadJoin _ => true
  | _ => false

/-- A trace free of any subscription or thread management action. -/
def watchFree (t : List Action) : Bool :=
  t.all (fun a => !isWatchAction a)

/-- An environment in which every external primitive succeeds. -/
def okUploadEnv : UploadEnv :=
  ⟨⟨none, none, none, none, none⟩, ⟨none, none, none, none, none⟩, none⟩

/-- A concrete configuration with auto-upload disabled, for witnesses. -/
def wManualConfig : Config :=
  ⟨"/srv/plugin", "/srv/server/plugins", "plugin.zip", false, "ftp",
    ⟨"ftp.example.com", 21, "user", "pass"⟩,
    ⟨"sftp.example.com", 22, "user", "pass", none⟩⟩

/-- A concrete SFTP failure environment: the transport connects, then
password authentication raises. -/
def wAuthFailSftpEnv : SftpEnv :=
  ⟨none, none, some "Authentication failed.", none, none⟩

/-- A concrete valid stored configuration text, for witnesses. -/
def wValidText : List Char :=
  "\x7b \"a\": 1 \x7d".data

/-- A concrete malformed stored configuration text, for witnesses. -/
def wBadText : List Char :=
  "not json".data

/-! ## Theorems -/

theorem pyTry_snd (b : PyRun) (h : String → List Action) : (pyTry b h).2 = none := by
  obtain ⟨t, e⟩ := b
  cases e <;> rfl

theorem pseq_none_left (x y : PyRun) (hx : x.2 = none) :
    pseq x y = (x.1 ++ y.1, y.2) := by
  obtain ⟨t, e⟩ := x
  cases e with
  | none => rfl
  | some e => exact absurd hx (by simp)

theorem pyTry_eq (b : PyRun) (h : String → List Action) :
    pyTry b h =
      (b.1 ++ (match b.2 with | some e => h e | none => []), none) := by
  obtain ⟨t, e⟩ := b
  cases e <;> simp [pyTry]

/-- C2: whatever the configuration, local path and failure behaviour of
the external primitives, `upload_ftp` and `upload_sftp` both swallow any
exception raised inside their `try` (connection, authentication,
directory change, session open, local open, transfer) and return
normally to the caller; on every failing run the caught exception is
logged — the trace is the body's actions followed by the `log.error`
line carrying the exception's message — and on a successful run no
error is logged. -/
theorem upload_transport_never_raises (config : Config) (zip_path : String)
    (fe : FtpEnv) (se : SftpEnv) :
    (upload_ftp config zip_path fe).2 = none ∧
    (upload_sftp config zip_path se).2 = none ∧
    (upload_ftp config zip_path fe).1 =
      (withFtpClose (ftpBody config zip_path fe)).1 ++
        (match (withFtpClose (ftpBody config zip_path fe)).2 with
          | some e => [Action.logError ("FTP 上传失败: " ++ e)]
          | none => []) ∧
    (upload_sftp config zip_path se).1 =
      (sftpBody config zip_path se).1 ++
        (match (sftpBody config zip_path se).2 with
          | some e => [Action.logError ("SFTP 上传失败: " ++ e)]
          | none => []) := by
  refine ⟨pyTry_snd _ _, pyTry_snd _ _, ?_, ?_⟩
  · show (pyTry _ _).1 = _
    rw [pyTry_eq]
  · show (pyTry _ _).1 = _
    rw [pyTry_eq]

/-- C4: an `on_modified` event runs the orchestrator exactly once when
it is a non-directory event whose path ends in ".py", and zero times
otherwise (directory events and paths with any other ending); in the
triggering case the handler's trace is the change log line followed by
one full `upload_plugin` run. -/
theorem on_modified_trigger_count (temp_dir : String) (config : Config)
    (env : UploadEnv) (event : FsEvent) :
    (on_modified temp_dir config env event).2 =
      (if event.is_directory = false ∧ event.src_path.endsWith ".py" = true
        then 1 else 0) ∧
    (on_modified temp_dir config env event).1 =
      (if event.is_directory = false ∧ event.src_path.endsWith ".py" = true
        then Action.logInfo ("检测到文件变更: " ++ event.src_path ++
            ", 正在重新打包并上传...") :: (upload_plugin temp_dir config env).1
        else []) := by
  obtain ⟨d, p⟩ := event
  cases d <;> cases hE : p.endsWith ".py" <;> simp [on_modified, hE]

/-- C1 (code bug): when the poll loop of `start_watcher` ends because
the termination signal is set, the code falls through to
`observer.join()` without ever calling `observer.stop()`, so the
observer is not stopped and the join blocks forever — `start_watcher`
does not return.  Only the `KeyboardInterrupt` path stops the observer
and returns. -/
theorem start_watcher_stop_signal_no_stop (config : Config) :
    (start_watcher config .stopSignal).returns = false ∧
    Action.observerStop ∉ (start_watcher config .stopSignal).trace ∧
    (start_watcher config .stopSignal).trace =
      [Action.observerSchedule config.plugin_dir, Action.observerStart] ∧
    (start_watcher config .interrupt).returns = true := by
  refine ⟨rfl, ?_, rfl, rfl⟩
  simp [start_watcher, observerJoinStep]

theorem topFiles_dirsRec_length :
    ∀ (n : Nat) (cs : List FsEntry), sizeOf cs ≤ n →
      (topFiles cs).length + (dirsRec cs).length = countList cs := by
  intro n
  induction n with
  | zero =>
    intro cs h
    exfalso
    cases cs <;> simp_arith at h
  | succ n ih =>
    intro cs h
    match cs with
    | [] => simp [topFiles, dirsRec, countList]
    | .file m :: es =>
      have hs : sizeOf es ≤ n := by
        simp_arith [List.cons.sizeOf_spec] at h
        omega
      have i1 := ih es hs
      simp [topFiles, dirsRec, countList, countFiles]
      omega
    | .dir m cs2 :: es =>
      have hs1 : sizeOf es ≤ n := by
        simp_arith [List.cons.sizeOf_spec] at h
        omega
      have hs2 : sizeOf cs2 ≤ n := by
        simp_arith [List.cons.sizeOf_spec] at h
        omega
      have i1 := ih es hs1
      have i2 := ih cs2 hs2
      simp [topFiles, dirsRec, countList, countFiles, walkList,
        List.length_append, List.length_map]
      omega

theorem walkList_length (cs : List FsEntry) :
    (walkList cs).length = countList cs := by
  have h := topFiles_dirsRec_length (sizeOf cs) cs le_rfl
  simp [walkList, List.length_append]
  omega

/-- C5: archiving a directory tree puts one entry per file below the
source directory into the archive at the requested output path (N files
at any depths give exactly N entries); the entry names are exactly the
`os.walk`-ordered relative paths joined with "/"; and the produced
archive does not depend on whatever file previously sat at the output
path (mode "w" truncates it). -/
theorem create_zip_from_dir_entries (directory : List FsEntry) (zip_name : String)
    (prev prev2 : Option (List String)) :
    (create_zip_from_dir directory zip_name prev).1 = zip_name ∧
    ((create_zip_from_dir directory zip_name prev).2).length = countList directory ∧
    (create_zip_from_dir directory zip_name prev).2 =
      (walkList directory).map (fun p => String.intercalate "/" p) ∧
    create_zip_from_dir directory zip_name prev =
      create_zip_from_dir directory zip_name prev2 := by
  refine ⟨rfl, ?_, rfl, rfl⟩
  simp [create_zip_from_dir, walkList_length]

set_option maxRecDepth 20000 in
/-- C6: with no stored configuration file, `load_config` persists the
documented default document (auto-upload enabled, FTP selected, the
placeholder paths and credentials) and returns exactly that document,
and parsing the persisted text yields exactly the returned value. -/
theorem load_config_defaults_roundtrip :
    load_config none = (.ok defaultConfigJson, some (json_dump defaultConfigJson)) ∧
    json_load (json_dump defaultConfigJson) = some defaultConfigJson ∧
    objGet defaultConfigJson (cp "auto_upload") = some (.bool true) ∧
    objGet defaultConfigJson (cp "upload_method") = some (.str (cp "ftp")) := by
  refine ⟨rfl, ?_, rfl, rfl⟩
  rfl

/-- C7: whenever the stored file holds a text that parses to a document
`d`, `load_config` returns `d` itself — no validation, no merging with
defaults — and leaves the stored file untouched. -/
theorem load_config_valid_verbatim (s : List Char) (d : Json)
    (h : json_load s = some d) :
    load_config (some s) = (.ok d, some s) := by
  simp [load_config, h]

theorem load_config_valid_verbatim_witness :
    json_load wValidText = some (Json.obj [(cp "a", Json.num 1)]) ∧
    load_config (some wValidText) =
      (.ok (Json.obj [(cp "a", Json.num 1)]), some wValidText) :=
  ⟨rfl, load_config_valid_verbatim wValidText (Json.obj [(cp "a", Json.num 1)]) rfl⟩

/-- C8: whenever the stored text does not parse, `load_config` raises
the parse failure to its caller (no recovery, no default writing) and
the stored file is not modified. -/
theorem load_config_malformed_raises (s : List Char)
    (h : json_load s = none) :
    load_config (some s) = (.error "json.decoder.JSONDecodeError", some s) := by
  simp [load_config, h]

theorem load_config_malformed_raises_witness :
    json_load wBadText = none ∧
    load_config (some wBadText) =
      (.error "json.decoder.JSONDecodeError", some wBadText) :=
  ⟨rfl, load_config_malformed_raises wBadText rfl⟩

/-- C3: one `upload_plugin` run, for any configuration and any failure
behaviour of the transports and of the scratch-file deletion, performs
exactly: the archive build from `plugin_dir` at the scratch path (system
temp directory joined with the archive name), then the dispatched
transport's actions ("ftp" and "sftp" select the transports, anything
else logs an invalid-method error and skips transport), then the
deletion attempt (the removal itself, or a warning log if the removal
raises), then the completion log — and it returns normally.  The
deletion attempt and the completion log are in the trace for every
environment, including any failed FTP login. -/
theorem upload_plugin_step_order (temp_dir : String) (config : Config)
    (env : UploadEnv) :
    upload_plugin temp_dir config env =
      (Action.createZip config.plugin_dir (osPathJoin temp_dir config.plugin_name) ::
        ((if config.upload_method = "ftp" then
            (upload_ftp config (osPathJoin temp_dir config.plugin_name) env.ftpEnv).1
          else if config.upload_method = "sftp" then
            (upload_sftp config (osPathJoin temp_dir config.plugin_name) env.sftpEnv).1
          else [Action.logError "上传方法无效，请选择 \x27ftp\x27 或 \x27sftp\x27"]) ++
          ((match env.removeEff with
            | none => [Action.removeFile (osPathJoin temp_dir config.plugin_name)]
            | some e => [Action.logWarning ("删除临时文件失败: " ++ e)]) ++
            [Action.logInfo "插件已重载"])), none) := by
  obtain ⟨fe, se, re⟩ := env
  have hT : (if config.upload_method = "ftp" then
        upload_ftp config (osPathJoin temp_dir config.plugin_name) fe
      else if config.upload_method = "sftp" then
        upload_sftp config (osPathJoin temp_dir config.plugin_name) se
      else ([Action.logError "上传方法无效，请选择 \x27ftp\x27 或 \x27sftp\x27"],
        none)).2 = none := by
    split
    · exact pyTry_snd _ _
    · split
      · exact pyTry_snd _ _
      · rfl
  have hfst : ∀ (c : Prop) [Decidable c] (a b : PyRun),
      (if c then a else b).1 = if c then a.1 else b.1 := by
    intro c _ a b
    split <;> rfl
  simp only [upload_plugin]
  rw [pseq_none_left _ _ rfl, pseq_none_left _ _ hT,
    pseq_none_left _ _ (pyTry_snd _ _)]
  cases re <;> simp [hfst, pyTry, pstep]

theorem sftp_close_only_success (config : Config) (zip_path : String)
    (env : SftpEnv) :
    Action.sftpCloseTransport ∈ (upload_sftp config zip_path env).1 →
    (sftpBody config zip_path env).2 = none := by
  obtain ⟨st, sk, sa, ss, sp⟩ := env
  obtain ⟨pd, spd, pn, au, um, fc, sc⟩ := config
  obtain ⟨sh, sprt, su, spw, spk⟩ := sc
  cases spk with
  | none =>
    cases st <;> cases sa <;> cases ss <;> cases sp <;>
      simp [upload_sftp, sftpBody, sftpAuthPart, pyTry, pseq, pstep]
  | some keyfile =>
    by_cases hk : keyfile.isEmpty <;>
      cases st <;> cases sk <;> cases sa <;> cases ss <;> cases sp <;>
        simp [upload_sftp, sftpBody, sftpAuthPart, hk, pyTry, pseq, pstep]

/-- C10: if the SFTP transport connection is established and any later
step of `upload_sftp` raises, the exception is caught and the function
returns normally, but neither `sftp.close()` nor `transport.close()` is
in the performed trace — both closes happen only on the fully successful
path (for any run, a performed transport close implies the whole body
succeeded). -/
theorem upload_sftp_unclosed_on_failure (config : Config) (zip_path : String)
    (env : SftpEnv) (hconn : env.transportEff = none)
    (hfail : (sftpBody config zip_path env).2 ≠ none) :
    Action.sftpCloseSession ∉ (upload_sftp config zip_path env).1 ∧
    Action.sftpCloseTransport ∉ (upload_sftp config zip_path env).1 ∧
    (upload_sftp config zip_path env).2 = none ∧
    (∀ cfg2 zp2 env2, Action.sftpCloseTransport ∈ (upload_sftp cfg2 zp2 env2).1 →
      (sftpBody cfg2 zp2 env2).2 = none) := by
  refine ⟨?_, ?_, pyTry_snd _ _, fun cfg2 zp2 env2 => sftp_close_only_success cfg2 zp2 env2⟩ <;>
  · obtain ⟨st, sk, sa, ss, sp⟩ := env
    obtain ⟨pd, spd, pn, au, um, fc, sc⟩ := config
    obtain ⟨sh, sprt, su, spw, spk⟩ := sc
    simp only at hconn
    subst hconn
    cases spk with
    | none =>
      cases sa <;> cases ss <;> cases sp <;>
        simp_all [upload_sftp, sftpBody, sftpAuthPart, pyTry, pseq, pstep]
    | some keyfile =>
      by_cases hk : keyfile.isEmpty <;>
        cases sk <;> cases sa <;> cases ss <;> cases sp <;>
          simp_all [upload_sftp, sftpBody, sftpAuthPart, hk, pyTry, pseq, pstep]

theorem upload_sftp_unclosed_on_failure_witness :
    Action.sftpCloseSession ∉
      (upload_sftp wManualConfig "/tmp/plugin.zip" wAuthFailSftpEnv).1 ∧
    Action.sftpCloseTransport ∉
      (upload_sftp wManualConfig "/tmp/plugin.zip" wAuthFailSftpEnv).1 ∧
    (upload_sftp wManualConfig "/tmp/plugin.zip" wAuthFailSftpEnv).2 = none ∧
    (∀ cfg2 zp2 env2, Action.sftpCloseTransport ∈ (upload_sftp cfg2 zp2 env2).1 →
      (sftpBody cfg2 zp2 env2).2 = none) :=
  upload_sftp_unclosed_on_failure wManualConfig "/tmp/plugin.zip" wAuthFailSftpEnv
    rfl (by decide)

theorem watchFree_append (t1 t2 : List Action) :
    watchFree (t1 ++ t2) = (watchFree t1 && watchFree t2) := by
  simp [watchFree, List.all_append]

theorem watchFree_pseq (x y : PyRun) (hx : watchFree x.1 = true)
    (hy : watchFree y.1 = true) : watchFree (pseq x y).1 = true := by
  obtain ⟨t, e⟩ := x
  cases e <;> simp_all [pseq, watchFree_append]

theorem watchFree_pyTry (b : PyRun) (h : String → List Action)
    (hb : watchFree b.1 = true) (hh : ∀ e, watchFree (h e) = true) :
    watchFree (pyTry b h).1 = true := by
  obtain ⟨t, e⟩ := b
  cases e <;> simp_all [pyTry, watchFree_append]

theorem watchFree_pstep (a : Action) (eff : Option String)
    (ha : isWatchAction a = false) : watchFree (pstep a eff).1 = true := by
  cases eff <;> simp [pstep, watchFree, ha]

theorem watchFree_upload_ftp (config : Config) (zip_path : String) (fe : FtpEnv) :
    watchFree (upload_ftp config zip_path fe).1 = true := by
  apply watchFree_pyTry
  · have hbody : watchFree (ftpBody config zip_path fe).1 = true := by
      apply watchFree_pseq _ _ (watchFree_pstep _ _ (by rfl))
      apply watchFree_pseq _ _ (watchFree_pstep _ _ (by rfl))
      apply watchFree_pseq _ _ (watchFree_pstep _ _ (by rfl))
      apply watchFree_pseq _ _ (watchFree_pstep _ _ (by rfl))
      apply watchFree_pseq _ _ (watchFree_pstep _ _ (by rfl))
      rfl
    simp only [withFtpClose, watchFree_append, hbody, Bool.true_and]
    rfl
  · intro e
    rfl

theorem watchFree_upload_sftp (config : Config) (zip_path : String) (se : SftpEnv) :
    watchFree (upload_sftp config zip_path se).1 = true := by
  apply watchFree_pyTry
  · apply watchFree_pseq _ _ (watchFree_pstep _ _ (by rfl))
    apply watchFree_pseq
    · unfold sftpAuthPart
      split
      · split
        · exact watchFree_pstep _ _ (by rfl)
        · exact watchFree_pseq _ _ (watchFree_pstep _ _ (by rfl))
            (watchFree_pstep _ _ (by rfl))
      · exact watchFree_pstep _ _ (by rfl)
    apply watchFree_pseq _ _ (watchFree_pstep _ _ (by rfl))
    apply watchFree_pseq _ _ (watchFree_pstep _ _ (by rfl))
    rfl
  · intro e
    rfl

theorem watchFree_upload_plugin (temp_dir : String) (config : Config)
    (env : UploadEnv) : watchFree (upload_plugin temp_dir config env).1 = true := by
  simp only [upload_plugin]
  apply watchFree_pseq
  · rfl
  apply watchFree_pseq
  · split
    · exact watchFree_upload_ftp _ _ _
    · split
      · exact watchFree_upload_sftp _ _ _
      · rfl
  apply watchFree_pseq
  · apply watchFree_pyTry _ _ (watchFree_pstep _ _ (by rfl))
    intro e
    rfl
  · rfl

theorem watchFree_manual_upload (temp_dir : String) (config : Config) :
    ∀ inputs : List (String × UploadEnv),
      watchFree (manual_upload temp_dir config inputs).1 = true := by
  intro inputs
  induction inputs with
  | nil => rfl
  | cons p rest ih =>
    obtain ⟨command, env⟩ := p
    simp only [manual_upload]
    split
    · exact watchFree_pseq _ _ (watchFree_upload_plugin _ _ _) ih
    · split
      · rfl
      · exact watchFree_pseq _ _ (by simp [watchFree, isWatchAction]) ih

/-- C9: for any configuration with the auto-upload flag disabled, the
program's whole run consists of the startup log, the manual-mode log and
the manual command loop, and its trace never contains any subscription
or worker-thread action: the observer is never scheduled or started and
no watcher thread is created, whatever the input stream. -/
theorem pymain_manual_no_subscription (temp_dir : String) (config : Config)
    (inputs : List (String × UploadEnv)) (mode : StopMode)
    (h : config.auto_upload = false) :
    (∀ a ∈ (pymain temp_dir config inputs mode).1, isWatchAction a = false) ∧
    (pymain temp_dir config inputs mode).1 =
      Action.logInfo "插件自动化更新程序已启动，开始加载配置..." ::
        Action.logInfo "启用手动上传模式，等待用户命令..." ::
        (manual_upload temp_dir config inputs).1 := by
  have htr : (pymain temp_dir config inputs mode).1 =
      Action.logInfo "插件自动化更新程序已启动，开始加载配置..." ::
        Action.logInfo "启用手动上传模式，等待用户命令..." ::
        (manual_upload temp_dir config inputs).1 := by
    simp [pymain, h, pseq]
  refine ⟨?_, htr⟩
  intro a ha
  rw [htr] at ha
  have hm := watchFree_manual_upload temp_dir config inputs
  simp only [watchFree, List.all_eq_true, Bool.not_eq_true'] at hm
  simp only [List.mem_cons] at ha
  rcases ha with ha | ha | ha
  · rw [ha]; rfl
  · rw [ha]; rfl
  · exact hm a ha

theorem pymain_manual_no_subscription_witness :
    (∀ a ∈ (pymain "/tmp" wManualConfig [("exit", okUploadEnv)] StopMode.stopSignal).1,
      isWatchAction a = false) ∧
    (pymain "/tmp" wManualConfig [("exit", okUploadEnv)] StopMode.stopSignal).1 =
      Action.logInfo "插件自动化更新程序已启动，开始加载配置..." ::
        Action.logInfo "启用手动上传模式，等待用户命令..." ::
        (manual_upload "/tmp" wManualConfig [("exit", okUploadEnv)]).1 :=
  pymain_manual_no_subscription "/tmp" wManualConfig [("exit", okUploadEnv)]
    StopMode.stopSignal rfl

end Uploader
